import Mathlib

/-!
Shallow embedding of the nodebb-plugin-arma3-slotting sources
(`plugin.ts`, the router/gate module, and the event-date parsing helpers)
together with proofs about the plugin's behaviour.

Strings coming from the forum (topic titles, route parameters) are modelled
as `String` or `List Char`; JavaScript numbers are modelled as `Int`/`ℚ`
(`Option` is used where JavaScript produces `NaN`/`undefined`); callbacks
are modelled by returning a record of everything the callback and the
response sink observe.  External collaborators (the topic store, the host
permission providers, the share-token store, `Date` parsing and the clock)
are inputs: each is passed in as an explicit oracle value describing what
that collaborator answers for the request under consideration.
-/

namespace Arma3Slotting

/-- Error value thrown or passed to callbacks by a dependency; only its
`message` is observable in the code under study. -/
structure JsError where
  message : String
deriving DecidableEq, Repr

/-- Whitespace stripped by JavaScript `String.prototype.trim` (the common
WhiteSpace / LineTerminator code points). -/
def isJsSpace (c : Char) : Bool :=
  c = ' ' || c = '\t' || c = '\n' || c = '\r' ||
  c = '\x0b' || c = '\x0c' || c = '\u00A0' || c = '\uFEFF'

/-- JavaScript `title.trim()` on a character list. -/
def jsTrim (l : List Char) : List Char :=
  ((l.dropWhile isJsSpace).reverse.dropWhile isJsSpace).reverse

/-- Numeric value of a digit string, most significant first. -/
def digitsVal (ds : List Char) : Nat :=
  ds.foldl (fun a c => a * 10 + (c.toNat - '0'.toNat)) 0

/-- JavaScript `parseInt(s, 10)`: skip leading whitespace, optional sign,
then the maximal digit prefix; `none` models `NaN`. -/
def jsParseInt (s : String) : Option Int :=
  let l := s.toList.dropWhile isJsSpace
  let signAndRest : Bool × List Char :=
    match l with
    | '-' :: r => (true, r)
    | '+' :: r => (false, r)
    | _ => (false, l)
  let ds := signAndRest.2.takeWhile Char.isDigit
  if ds.isEmpty then none
  else some ((if signAndRest.1 then -1 else 1) * (digitsVal ds : Int))

/-- Truthiness of a JavaScript number held as `Option Int` (`none` = `NaN`). -/
def jsTruthyIntOpt : Option Int → Bool
  | none => false
  | some v => v != 0

/-- Truthiness of a possibly-absent string (request header):
`undefined` and the empty string are falsy. -/
def jsTruthyStrOpt : Option String → Bool
  | none => false
  | some s => s != ""

/-! ### EventDateParser (`topicIsEvent` / `secondsToEvent`)

`topicIsEvent` is `title.trim().match(/([0-9]{4}-[0-9]{2}-[0-9]{2})([^0-9a-z])/i)`;
`secondsToEvent` matches `/([0-9]{4}-[0-9]{2}-[0-9]{2})( [0-9:+ ])?[^0-9a-z]/i`
against the trimmed title, feeds the full match to `new Date`, adds 86400
seconds when the optional group did not participate, and returns
`(eventDate - now) / 1000`; a failed match returns `-1`.  The regular
expressions are embedded as scanners over the character list with the same
leftmost-match, greedy-then-backtrack semantics. -/

/-- Character class `[^0-9a-z]` under the `i` flag: neither an ASCII digit
nor an ASCII letter of either case. -/
def isSep (c : Char) : Bool :=
  !(c.isDigit || ('a' ≤ c && c ≤ 'z') || ('A' ≤ c && c ≤ 'Z'))

/-- Character class `[0-9:+ ]` of the optional time group. -/
def isTimeChar (c : Char) : Bool :=
  c.isDigit || c = ':' || c = '+' || c = ' '

/-- The fixed-shape date part `[0-9]{4}-[0-9]{2}-[0-9]{2}` read off a
ten-character list. -/
def dateOk (d : List Char) : Bool :=
  match d with
  | [y1, y2, y3, y4, h1, m1, m2, h2, d1, d2] =>
    y1.isDigit && y2.isDigit && y3.isDigit && y4.isDigit &&
    h1 = '-' && m1.isDigit && m2.isDigit && h2 = '-' &&
    d1.isDigit && d2.isDigit
  | _ => false

/-- Does the list start with a separator character? -/
def sepHead : List Char → Bool
  | c :: _ => isSep c
  | [] => false

/-- One step of the `topicIsEvent` regex: the date pattern anchored here,
immediately followed by a separator character. -/
def dateSepHere (s : List Char) : Bool :=
  dateOk (s.take 10) && sepHead (s.drop 10)

/-- Scan of the `topicIsEvent` regex over every start position. -/
def hasDateSep : List Char → Bool
  | [] => false
  | c :: r => dateSepHere (c :: r) || hasDateSep r

/-- The source's `topicIsEvent` as a classifier: `true` exactly when the
regex match is non-null. -/
def topicIsEvent (title : List Char) : Bool :=
  hasDateSep (jsTrim title)

/-- Fallback step of the `secondsToEvent` regex once the optional time group
is dropped: the next character must be a separator (`some false` = match with
group 2 absent). -/
def noGroupAt : List Char → Option Bool
  | c :: _ => if isSep c then some false else none
  | [] => none

/-- What follows the date in the `secondsToEvent` regex: the engine greedily
tries the optional group `( [0-9:+ ])` (a space and one class character)
followed by `[^0-9a-z]`, and backtracks to the group-less alternative when
that fails.  `some g` = match with group-2 participation `g`. -/
def groupStep (rest : List Char) : Option Bool :=
  match rest with
  | c1 :: t :: c :: _ =>
    if c1 == ' ' && isTimeChar t && isSep c then some true else noGroupAt rest
  | _ => noGroupAt rest

/-- One step of the `secondsToEvent` regex anchored here. -/
def matchAt (s : List Char) : Option Bool :=
  if dateOk (s.take 10) then groupStep (s.drop 10) else none

/-- Leftmost match of the `secondsToEvent` regex: the full matched text
(`dateParts[0]`) and whether the time group participated (`dateParts[2]`). -/
def eventDateScan : List Char → Option (List Char × Bool)
  | [] => none
  | c :: r =>
    match matchAt (c :: r) with
    | some true => some ((c :: r).take 13, true)
    | some false => some ((c :: r).take 11, false)
    | none => eventDateScan r

/-- The source's `secondsToEvent`.  `parseDate` is the oracle for
`new Date(string).getTime()` in milliseconds (`none` = Invalid Date, whose
`NaN` propagates to the result, modelled by `none`); `now` is the oracle for
`new Date().getTime()`.  A failed match — or an empty `dateParts[0]` — gives
the `-1` sentinel. -/
def secondsToEvent (parseDate : List Char → Option Int) (now : Int)
    (title : List Char) : Option ℚ :=
  match eventDateScan (jsTrim title) with
  | none => some (-1)
  | some (matched, hasTime) =>
    if matched.isEmpty then some (-1)
    else
      match parseDate matched with
      | none => none
      | some t =>
        some (Rat.divInt ((if hasTime then t else t + 86400 * 1000) - now) 1000)

/-- Declarative reading of claim C3: the (trimmed) title contains a
substring of shape `YYYY-MM-DD` immediately followed by a character that is
neither a digit nor a letter. -/
def containsEventDate (s : List Char) : Prop :=
  ∃ pre d c post, s = pre ++ d ++ c :: post ∧ dateOk d = true ∧ isSep c = true

/-! ### plugin.ts hooks

`catchAttendanceChange` and `filterAttendanceSlotted` are promise-chained
hook handlers; each is modelled as a function from the hook parameters and
the resolved/rejected value of its one asynchronous dependency to a record
of everything observable: the callback's error argument, the notifications
emitted, and whether slot state was touched at all. -/

/-- The `AttendanceChangeEvent` hook payload `{tid, uid, probability}`. -/
structure AttendanceChange where
  tid : Nat
  uid : Nat
  probability : ℚ
deriving DecidableEq, Repr

/-- Everything observable about one `catchAttendanceChange` run: the error
handed to the callback, the `notifyAutoUnslotted(tid, uid, count)` events
emitted, and whether `unattendUser` (the slot state) was consulted. -/
structure UnslotRun where
  cbErr : Option JsError
  sentNotifs : List (Nat × Nat × Nat)
  unattendCalled : Bool
deriving DecidableEq, Repr

/-- The source's `catchAttendanceChange`:  `probability >= 1` short-circuits
with `callback(null, null)`; otherwise `unattendUser(tid, uid)` runs, a
non-zero resolved count triggers exactly one notification, and a rejection
reaches the callback as the error.  `unattend` is the oracle for the
`unattendUser` promise. -/
def catchAttendanceChange (p : AttendanceChange)
    (unattend : Except JsError Nat) : UnslotRun :=
  if p.probability ≥ 1 then
    { cbErr := none, sentNotifs := [], unattendCalled := false }
  else
    match unattend with
    | .ok resultCount =>
      { cbErr := none,
        sentNotifs := if resultCount != 0 then [(p.tid, p.uid, resultCount)] else [],
        unattendCalled := true }
    | .error e =>
      { cbErr := some e, sentNotifs := [], unattendCalled := true }

/-- Everything observable about one `filterAttendanceSlotted` run: the
callback's two arguments and the value assigned to `params.userIds`
(`none` = the field was never assigned). -/
structure FilterRun where
  cbErr : Option JsError
  cbUserIds : List Nat
  paramsUserIds : Option (List Nat)
deriving DecidableEq, Repr

/-- The source's `filterAttendanceSlotted` over the oracle for
`eventRepository.getSlottedUserIds(tid)`. -/
def filterAttendanceSlotted (repo : Except JsError (List Nat)) : FilterRun :=
  match repo with
  | .ok userIds =>
    { cbErr := none, cbUserIds := userIds, paramsUserIds := some userIds }
  | .error e =>
    { cbErr := some e, cbUserIds := [], paramsUserIds := none }

/-! ### Access-control gates and the permission probe

Each Express middleware is modelled as a function from the request and an
environment of oracle answers to a `HOut`: it either calls `next()`, sends a
response (status and JSON body), or throws synchronously inside a dependency
callback (no response at all).  The JSON bodies that occur in the source are
enumerated by `ResBody`; note that `requireAdminOrThreadOwner` and the probe
pass the raw error object to `res.json`, not the `{message}` wrapper. -/

/-- JSON bodies sent by the module. -/
inductive ResBody where
  /-- The `exceptionToErrorResponse` / literal shape `\x7bmessage: string\x7d`. -/
  | messageObj (msg : String)
  /-- The probe's `\x7berror: string\x7d` body. -/
  | errorFieldObj (err : String)
  /-- An `Error` object passed raw to `res.json(err)`. -/
  | rawError (e : JsError)
  /-- The probe's `\x7bresult: boolean\x7d`. -/
  | resultObj (result : Bool)
  /-- The probe's `\x7bresult, message\x7d` body for guests. -/
  | resultMsgObj (result : Bool) (msg : String)
  /-- The probe's `\x7bgroups, result\x7d` body. -/
  | groupsResultObj (groups : List String) (result : Bool)
  /-- The `\x7b\x7d` of `returnSuccess`. -/
  | emptyObj
  /-- Body produced by a delegated api endpoint handler. -/
  | endpointBody (name : String)
deriving DecidableEq, Repr

/-- Is the body of the documented error shape `\x7bmessage: string\x7d`? -/
def isMessageBody : ResBody → Bool
  | .messageObj _ => true
  | _ => false

/-- Outcome of one middleware: `next()`, a sent response, or a synchronous
throw escaping the dependency callback. -/
inductive HOut where
  | next
  | responded (status : Nat) (body : ResBody)
  | thrown (e : JsError)
deriving DecidableEq, Repr

/-- The request data the modelled middlewares read: the authenticated user id
(`0` = guest, falsy), the `X-Api-Key` header, and the raw `:tid` route
parameter. -/
structure Req where
  uid : Nat
  headerApiKey : Option String
  tidStr : String
deriving DecidableEq, Repr

/-- Module configuration plus one oracle per external call the middlewares
can make for the request under consideration:  `apiKey` and
`allowedCategories` are the module-level mutable configuration (`""` models
the unset `apiKey`), the `Except` fields are the `(err, result)` callback
answers of the topic store, permission providers, share store and group
lookup, and `parseDate`/`now` feed `secondsToEvent`. -/
structure Env where
  apiKey : String
  allowedCategories : List Int
  topicExists : Except JsError Bool
  getTitle : Except JsError (Option (List Char))
  getCategoryId : Except JsError Int
  canSee : Except JsError Bool
  canAttend : Except JsError Bool
  isAllowedToEdit : Except JsError Bool
  shareGet : Except JsError Bool
  getGroups : Except JsError (List String)
  parseDate : List Char → Option Int
  now : Int

/-- The source's `exceptionToErrorResponse`. -/
def exceptionToErrorResponse (e : JsError) : ResBody :=
  .messageObj e.message

/-- JavaScript `template.replace("%d", tid)` for the error messages. -/
def substTid (template : String) (tidStr : String) : String :=
  template.replace "%d" tidStr

/-- The source's `requireTopic` middleware. -/
def requireTopic (env : Env) (req : Req) : HOut :=
  match env.topicExists with
  | .error e => .responded 500 (exceptionToErrorResponse e)
  | .ok result =>
    if !result then
      .responded 404 (.messageObj (substTid "topic %d does not exist" req.tidStr))
    else .next

/-- The source's `restrictCategories` middleware (the tid forwarded to the
category lookup is absorbed into the `getCategoryId` oracle). -/
def restrictCategories (env : Env) (_req : Req) : HOut :=
  if env.allowedCategories = [] then .next
  else
    match env.getCategoryId with
    | .error e => .responded 500 (exceptionToErrorResponse e)
    | .ok cid =>
      if env.allowedCategories.indexOf cid = env.allowedCategories.length then
        .responded 404 (.messageObj "API disabled for this category")
      else .next

/-- The source's `requireLoggedIn` middleware: a configured, matching
`X-Api-Key` or a truthy `req.uid` passes; otherwise 401. -/
def requireLoggedIn (env : Env) (req : Req) : HOut :=
  if env.apiKey != "" && req.headerApiKey == some env.apiKey then .next
  else if req.uid != 0 then .next
  else .responded 401 (.messageObj "plz log in to access this API")

/-- The source's `requireEventInFuture` middleware, built over
`topicIsEvent` and `secondsToEvent`. -/
def requireEventInFuture (env : Env) (req : Req) : HOut :=
  match env.getTitle with
  | .error e => .responded 500 (exceptionToErrorResponse e)
  | .ok titleOpt =>
    match titleOpt with
    | none =>
      .responded 404
        (.messageObj (substTid "topic %d does not exist or doesnt have a title oO" req.tidStr))
    | some title =>
      if title.isEmpty then
        .responded 404
          (.messageObj (substTid "topic %d does not exist or doesnt have a title oO" req.tidStr))
      else if !topicIsEvent title then
        .responded 404 (.messageObj (substTid "topic %d is no event" req.tidStr))
      else if (secondsToEvent env.parseDate env.now title
                |>.elim false (fun q => decide (q < 0))) then
        .responded 403
          (.messageObj (substTid "too late. event start of %d is passed" req.tidStr))
      else .next

/-- The source's `requireCanSeeAttendance`: a dependency error is re-thrown
inside the callback (no response is produced). -/
def requireCanSeeAttendance (env : Env) : HOut :=
  match env.canSee with
  | .error e => .thrown e
  | .ok result => if result then .next else
      .responded 403 (.messageObj "you are not allowed to see this")

/-- The source's `requireCanWriteAttendance`: any `X-Api-Key` header — the
static key included — is handed to `shareDb.getFromDb` as a share id and
decides alone (the lookup error is ignored, only a truthy result passes);
without the header, `canAttend` decides, its error being re-thrown. -/
def requireCanWriteAttendance (env : Env) (req : Req) : HOut :=
  if jsTruthyStrOpt req.headerApiKey then
    match env.shareGet with
    | .ok true => .next
    | _ => .responded 403 (.messageObj "Invalid share id")
  else
    match env.canAttend with
    | .error e => .thrown e
    | .ok result => if result then .next else
        .responded 403 (.messageObj "you are not allowed to edit this")

/-- The source's `requireAdminOrThreadOwner`: matching static key passes
outright; a falsy parsed tid or uid is a 400; the edit-permission provider
decides otherwise, its error sent raw with status 500. -/
def requireAdminOrThreadOwner (env : Env) (req : Req) : HOut :=
  let tid := jsParseInt req.tidStr
  if env.apiKey != "" && req.headerApiKey == some env.apiKey then .next
  else if !jsTruthyIntOpt tid || req.uid = 0 then
    .responded 400 (.messageObj "must be logged in and provide topic id")
  else
    match env.isAllowedToEdit with
    | .error e => .responded 500 (.rawError e)
    | .ok result =>
      if !result then
        .responded 403 (.messageObj "You're not admin or owner of this topic")
      else .next

/-- The source's `isAdminOrThreadOwner` probe (it always responds, never
calls a next handler). -/
def isAdminOrThreadOwner (env : Env) (req : Req) : HOut :=
  let tid := jsParseInt req.tidStr
  if jsTruthyStrOpt req.headerApiKey then
    .responded 200 (.resultObj (req.headerApiKey == some env.apiKey))
  else if req.uid = 0 then
    .responded 200 (.resultMsgObj false "you're not logged in, btw")
  else if !jsTruthyIntOpt tid then
    .responded 400 (.errorFieldObj "must provide topic id")
  else
    match env.isAllowedToEdit with
    | .error e => .responded 500 (.rawError e)
    | .ok hasAdminPermission =>
      match env.getGroups with
      | .error e => .responded 500 (.rawError e)
      | .ok groups => .responded 200 (.groupsResultObj groups hasAdminPermission)

/-- The source's `methodNotAllowed` terminal handler. -/
def methodNotAllowed : HOut :=
  .responded 405 (.messageObj "Method not allowed")

/-- The source's `returnSuccess` terminal handler. -/
def returnSuccess : HOut :=
  .responded 200 .emptyObj

/-! ### The router (`init`)

`init` registers each middleware separately (the method generator loops over
the callbacks), so the route table is a flat, ordered list of
`(method, path pattern, one handler)` entries.  Express tries them in order;
a handler calling `next()` moves to the next matching entry, a response
stops, and a request no entry answers falls through to the host's default
handling (it is not answered with 405 by this module). -/

/-- HTTP verbs (`patch` stands for any verb the module never registers
explicitly; `router.all` still catches it). -/
inductive Method where
  | get | post | put | delete | patch
deriving DecidableEq, Repr

/-- Method selector of a registration: one verb or `router.all`. -/
inductive MSpec where
  | verb (m : Method)
  | allM
deriving DecidableEq, Repr

/-- One segment of a route pattern: a literal, a named `:param`, or the
trailing `*` wildcard. -/
inductive Seg where
  | lit (s : String)
  | param
  | wild
deriving DecidableEq, Repr

/-- The handlers `init` registers. -/
inductive Handler where
  | requireTopicH
  | restrictCategoriesH
  | requireLoggedInH
  | requireEventInFutureH
  | requireCanSeeAttendanceH
  | requireCanWriteAttendanceH
  | requireAdminOrThreadOwnerH
  | isAdminOrThreadOwnerH
  | methodNotAllowedH
  | returnSuccessH
  | endpointH (name : String)
deriving DecidableEq, Repr

/-- One `router[method](prefixApiPath(path), cb)` registration. -/
structure Route where
  m : MSpec
  pattern : List Seg
  handler : Handler
deriving DecidableEq, Repr

/-- Does a pattern match a path (as segment lists)?  The trailing `*` of
Express 4 requires the slash before it, hence a non-empty remainder. -/
def segsMatch : List Seg → List String → Bool
  | [], [] => true
  | [Seg.wild], rest => !rest.isEmpty
  | Seg.lit s :: ps, x :: xs => s == x && segsMatch ps xs
  | Seg.param :: ps, _ :: xs => segsMatch ps xs
  | _, _ => false

/-- Does a registration's method selector accept the request verb? -/
def mspecMatches : MSpec → Method → Bool
  | .allM, _ => true
  | .verb m, v => m == v

/-- The exact registration order of `init` (each callback of a call
`get/pos/del/put/all(path, cb1, cb2, …)` is its own entry, in order). -/
def routes : List Route :=
  [ ⟨.allM, [.param], .requireTopicH⟩,
    ⟨.allM, [.param], .restrictCategoriesH⟩,
    ⟨.allM, [.param, .wild], .requireTopicH⟩,
    ⟨.allM, [.param, .wild], .restrictCategoriesH⟩,
    ⟨.verb .post, [.param, .wild], .requireLoggedInH⟩,
    ⟨.verb .post, [.param, .wild], .restrictCategoriesH⟩,
    ⟨.verb .post, [.param, .wild], .requireEventInFutureH⟩,
    ⟨.verb .put, [.param, .wild], .requireLoggedInH⟩,
    ⟨.verb .put, [.param, .wild], .restrictCategoriesH⟩,
    ⟨.verb .put, [.param, .wild], .requireEventInFutureH⟩,
    ⟨.verb .delete, [.param, .wild], .requireLoggedInH⟩,
    ⟨.verb .delete, [.param, .wild], .restrictCategoriesH⟩,
    ⟨.verb .delete, [.param, .wild], .requireEventInFutureH⟩,
    ⟨.verb .get, [.param], .requireCanSeeAttendanceH⟩,
    ⟨.verb .get, [.param], .endpointH "matchApi.getAll"⟩,
    ⟨.verb .get, [.param, .lit "slotted-user-ids"], .requireCanSeeAttendanceH⟩,
    ⟨.verb .get, [.param, .lit "slotted-user-ids"], .endpointH "slottedUsersApi.get"⟩,
    ⟨.verb .get, [.param, .lit "has-permissions"], .isAdminOrThreadOwnerH⟩,
    ⟨.verb .get, [.param, .lit "has-permissions"], .returnSuccessH⟩,
    ⟨.verb .post, [.param, .lit "match"], .requireAdminOrThreadOwnerH⟩,
    ⟨.verb .post, [.param, .lit "match"], .endpointH "matchApi.post"⟩,
    ⟨.allM, [.param, .lit "match"], .methodNotAllowedH⟩,
    ⟨.verb .put, [.param, .lit "match", .param], .requireAdminOrThreadOwnerH⟩,
    ⟨.verb .put, [.param, .lit "match", .param], .endpointH "matchApi.put"⟩,
    ⟨.verb .get, [.param, .lit "match", .param], .requireCanSeeAttendanceH⟩,
    ⟨.verb .get, [.param, .lit "match", .param], .endpointH "matchApi.get"⟩,
    ⟨.verb .delete, [.param, .lit "match", .param], .requireAdminOrThreadOwnerH⟩,
    ⟨.verb .delete, [.param, .lit "match", .param], .endpointH "matchApi.del"⟩,
    ⟨.allM, [.param, .lit "match", .param], .methodNotAllowedH⟩,
    ⟨.verb .get, [.param, .lit "match", .param, .lit "share"], .requireAdminOrThreadOwnerH⟩,
    ⟨.verb .get, [.param, .lit "match", .param, .lit "share"], .endpointH "shareApi.getAll"⟩,
    ⟨.verb .get, [.param, .lit "match", .param, .lit "share", .param], .requireTopicH⟩,
    ⟨.verb .get, [.param, .lit "match", .param, .lit "share", .param], .endpointH "shareApi.get"⟩,
    ⟨.verb .post, [.param, .lit "match", .param, .lit "share"], .requireAdminOrThreadOwnerH⟩,
    ⟨.verb .post, [.param, .lit "match", .param, .lit "share"], .endpointH "shareApi.post"⟩,
    ⟨.verb .delete, [.param, .lit "match", .param, .lit "share"], .requireAdminOrThreadOwnerH⟩,
    ⟨.verb .delete, [.param, .lit "match", .param, .lit "share"], .endpointH "shareApi.del"⟩,
    ⟨.allM, [.param, .lit "match", .param, .lit "share"], .methodNotAllowedH⟩,
    ⟨.verb .get, [.param, .lit "match", .param, .lit "slot"], .requireCanSeeAttendanceH⟩,
    ⟨.verb .get, [.param, .lit "match", .param, .lit "slot"], .endpointH "slotApi.getAll"⟩,
    ⟨.allM, [.param, .lit "match", .param, .lit "slot"], .methodNotAllowedH⟩,
    ⟨.verb .put, [.param, .lit "match", .param, .lit "slot", .param, .lit "user"], .requireCanWriteAttendanceH⟩,
    ⟨.verb .put, [.param, .lit "match", .param, .lit "slot", .param, .lit "user"], .endpointH "userApi.put"⟩,
    ⟨.verb .delete, [.param, .lit "match", .param, .lit "slot", .param, .lit "user"], .requireCanWriteAttendanceH⟩,
    ⟨.verb .delete, [.param, .lit "match", .param, .lit "slot", .param, .lit "user"], .endpointH "userApi.del"⟩,
    ⟨.verb .get, [.param, .lit "match", .param, .lit "slot", .param, .lit "user"], .requireCanSeeAttendanceH⟩,
    ⟨.verb .get, [.param, .lit "match", .param, .lit "slot", .param, .lit "user"], .endpointH "userApi.get"⟩,
    ⟨.allM, [.param, .lit "match", .param, .lit "slot", .param, .lit "user"], .methodNotAllowedH⟩,
    ⟨.verb .put, [.param, .lit "match", .param, .lit "slot", .param, .lit "reservation"], .requireAdminOrThreadOwnerH⟩,
    ⟨.verb .put, [.param, .lit "match", .param, .lit "slot", .param, .lit "reservation"], .endpointH "reservationApi.put"⟩,
    ⟨.verb .delete, [.param, .lit "match", .param, .lit "slot", .param, .lit "reservation"], .requireAdminOrThreadOwnerH⟩,
    ⟨.verb .delete, [.param, .lit "match", .param, .lit "slot", .param, .lit "reservation"], .endpointH "reservationApi.del"⟩,
    ⟨.verb .get, [.param, .lit "match", .param, .lit "slot", .param, .lit "reservation"], .requireCanSeeAttendanceH⟩,
    ⟨.verb .get, [.param, .lit "match", .param, .lit "slot", .param, .lit "reservation"], .endpointH "reservationApi.get"⟩,
    ⟨.allM, [.param, .lit "match", .param, .lit "slot", .param, .lit "reservation"], .methodNotAllowedH⟩ ]

/-- Run one handler on the request. -/
def runHandler (env : Env) (req : Req) : Handler → HOut
  | .requireTopicH => requireTopic env req
  | .restrictCategoriesH => restrictCategories env req
  | .requireLoggedInH => requireLoggedIn env req
  | .requireEventInFutureH => requireEventInFuture env req
  | .requireCanSeeAttendanceH => requireCanSeeAttendance env
  | .requireCanWriteAttendanceH => requireCanWriteAttendance env req
  | .requireAdminOrThreadOwnerH => requireAdminOrThreadOwner env req
  | .isAdminOrThreadOwnerH => isAdminOrThreadOwner env req
  | .methodNotAllowedH => methodNotAllowed
  | .returnSuccessH => returnSuccess
  | .endpointH name => .responded 200 (.endpointBody name)

/-- Final outcome of routing one request. -/
inductive DispatchResult where
  | responded (status : Nat) (body : ResBody)
  | thrown (e : JsError)
  /-- No registered handler answered: Express falls through to the host's
  default handling (the module sends nothing, in particular no 405). -/
  | fallthrough
deriving DecidableEq, Repr

/-- Walk the remaining registrations in order, as Express does. -/
def runRoutes (env : Env) (uid : Nat) (hdr : Option String) (verb : Method)
    (path : List String) : List Route → DispatchResult
  | [] => .fallthrough
  | r :: rs =>
    if mspecMatches r.m verb && segsMatch r.pattern path then
      match runHandler env { uid := uid, headerApiKey := hdr, tidStr := path.headD "" } r.handler with
      | .next => runRoutes env uid hdr verb path rs
      | .responded s b => .responded s b
      | .thrown e => .thrown e
    else runRoutes env uid hdr verb path rs

/-- Route one request through the table `init` builds. -/
def dispatch (env : Env) (uid : Nat) (hdr : Option String) (verb : Method)
    (path : List String) : DispatchResult :=
  runRoutes env uid hdr verb path routes

/-! ### Concrete oracle environments used by the witnesses and
counterexamples -/

/-- An environment in which every dependency answers favourably: the topic
exists, its title is a future event, no category restriction is configured,
every permission provider consents, the share lookup finds a token, and the
date oracle places the event far in the future. -/
def favourableEnv : Env where
  apiKey := ""
  allowedCategories := []
  topicExists := .ok true
  getTitle := .ok (some ("x 2099-01-01 x".toList))
  getCategoryId := .ok 1
  canSee := .ok true
  canAttend := .ok true
  isAllowedToEdit := .ok true
  shareGet := .ok true
  getGroups := .ok ["administrators"]
  parseDate := fun _ => some 4070908800000
  now := 0

/-- The favourable environment with the static API key configured but no
share token in store: the constellation of claim C6's counterexample. -/
def keyNoShareEnv : Env :=
  { favourableEnv with apiKey := "secret", shareGet := .ok false }

/-- The favourable environment with a failing `canSee` provider. -/
def canSeeErrorEnv : Env :=
  { favourableEnv with canSee := .error ⟨"boom"⟩ }

end Arma3Slotting

namespace Arma3Slotting

/-! ### Lemmas about the two regex scanners -/

/-- A list accepted by the date pattern has exactly ten characters. -/
lemma dateOk_length {d : List Char} (h : dateOk d = true) : d.length = 10 := by
  unfold dateOk at h
  split at h
  · simp_all
  · exact absurd h (by simp)

/-- The anchored `topicIsEvent` step holds exactly when the list decomposes
as a well-formed date followed by a separator. -/
lemma dateSepHere_iff (t : List Char) :
    dateSepHere t = true ↔
      ∃ d c r, t = d ++ c :: r ∧ dateOk d = true ∧ isSep c = true := by
  constructor
  · intro h
    rw [dateSepHere, Bool.and_eq_true] at h
    obtain ⟨h1, h2⟩ := h
    cases hd : t.drop 10 with
    | nil => rw [hd] at h2; simp [sepHead] at h2
    | cons c r =>
      refine ⟨t.take 10, c, r, ?_, h1, ?_⟩
      · conv_lhs => rw [← List.take_append_drop 10 t]
        rw [hd]
      · rw [hd] at h2; simpa [sepHead] using h2
  · rintro ⟨d, c, r, rfl, hd, hc⟩
    have hlen : d.length = 10 := dateOk_length hd
    rw [dateSepHere, Bool.and_eq_true, ← hlen, List.take_left, List.drop_left]
    exact ⟨hd, by simpa [sepHead] using hc⟩

/-- The scan of the `topicIsEvent` regex succeeds exactly when some suffix
starts with date-plus-separator. -/
lemma hasDateSep_iff_drop (s : List Char) :
    hasDateSep s = true ↔ ∃ n, dateSepHere (s.drop n) = true := by
  induction s with
  | nil => simp [hasDateSep, dateSepHere, dateOk, sepHead]
  | cons c r ih =>
    rw [hasDateSep, Bool.or_eq_true, ih]
    constructor
    · rintro (h | ⟨n, h⟩)
      · exact ⟨0, h⟩
      · exact ⟨n + 1, h⟩
    · rintro ⟨n, h⟩
      cases n with
      | zero => exact Or.inl h
      | succ m => exact Or.inr ⟨m, h⟩

/-- The step of the `secondsToEvent` regex matches exactly when the next
character is a separator — the space opening the optional time group is
itself a separator character, so the greedy group never adds positions. -/
lemma groupStep_isSome (rest : List Char) :
    (groupStep rest).isSome = sepHead rest := by
  cases rest with
  | nil => rfl
  | cons c1 l1 =>
    cases l1 with
    | nil => cases hc : isSep c1 <;> simp [groupStep, noGroupAt, sepHead, hc]
    | cons c2 l2 =>
      cases l2 with
      | nil => cases hc : isSep c1 <;> simp [groupStep, noGroupAt, sepHead, hc]
      | cons c3 l3 =>
        by_cases h : (c1 == ' ' && isTimeChar c2 && isSep c3) = true
        · have hc1 : c1 = ' ' := by
            have := (Bool.and_eq_true _ _).mp ((Bool.and_eq_true _ _).mp h).1
            exact eq_of_beq this.1
          rw [groupStep, if_pos h]
          subst hc1
          rfl
        · rw [groupStep, if_neg h]
          cases hc : isSep c1 <;> simp [noGroupAt, sepHead, hc]

/-- Anchored agreement of the two regexes. -/
lemma matchAt_isSome (s : List Char) : (matchAt s).isSome = dateSepHere s := by
  rw [matchAt, dateSepHere]
  cases h : dateOk (s.take 10) with
  | false => simp [h]
  | true => simp [h, groupStep_isSome]

/-- Existence agreement of the two regexes: the `secondsToEvent` scan finds
a match exactly when `topicIsEvent`'s does. -/
lemma eventDateScan_isSome (s : List Char) :
    (eventDateScan s).isSome = hasDateSep s := by
  induction s with
  | nil => rfl
  | cons c r ih =>
    rw [eventDateScan, hasDateSep]
    cases hm : matchAt (c :: r) with
    | none =>
      have h := matchAt_isSome (c :: r)
      rw [hm] at h
      simp only [Option.isSome_none] at h
      simp [← h, ih]
    | some g =>
      have h := matchAt_isSome (c :: r)
      rw [hm] at h
      simp only [Option.isSome_some] at h
      cases g <;> simp [← h]

/-- The full match `dateParts[0]` of a successful scan is never empty. -/
lemma eventDateScan_matched_ne_empty {s m : List Char} {g : Bool}
    (h : eventDateScan s = some (m, g)) : m.isEmpty = false := by
  induction s with
  | nil => simp [eventDateScan] at h
  | cons c r ih =>
    rw [eventDateScan] at h
    cases hm : matchAt (c :: r) with
    | none => rw [hm] at h; exact ih h
    | some g2 =>
      rw [hm] at h
      cases g2 <;> simp_all [List.take] <;> (intro h0; subst h0; simp_all)

/-! ### The claims -/

/-- C1: for every attendance-change event with `probability >= 1`,
`catchAttendanceChange` performs no removal, sends no notification, and
reports success (the callback gets a null error) without consulting any slot
state — whatever the `unattendUser` oracle would have answered. -/
theorem c1_certain_attendance_no_action (p : AttendanceChange)
    (unattend : Except JsError Nat) (h : p.probability ≥ 1) :
    catchAttendanceChange p unattend =
      { cbErr := none, sentNotifs := [], unattendCalled := false } := by
  unfold catchAttendanceChange
  rw [if_pos h]

/-- Witness for C1 at `probability = 1` and a would-be removal count of 5. -/
theorem c1_certain_attendance_no_action_witness :
    catchAttendanceChange ⟨3, 4, 1⟩ (.ok 5) =
      { cbErr := none, sentNotifs := [], unattendCalled := false } :=
  c1_certain_attendance_no_action ⟨3, 4, 1⟩ (.ok 5) (by norm_num)

/-- C2: for every attendance-change event with `probability < 1`, exactly one
notification carrying `(tid, uid, count)` is emitted when and only when the
removal count is positive, and a removal failure reaches the callback as the
(single) error, never swallowed. -/
theorem c2_uncertain_attendance_unslots (p : AttendanceChange)
    (unattend : Except JsError Nat) (h : p.probability < 1) :
    (∀ n, unattend = .ok n →
      catchAttendanceChange p unattend =
        { cbErr := none,
          sentNotifs := if 0 < n then [(p.tid, p.uid, n)] else [],
          unattendCalled := true }) ∧
    (∀ e, unattend = .error e →
      catchAttendanceChange p unattend =
        { cbErr := some e, sentNotifs := [], unattendCalled := true }) := by
  unfold catchAttendanceChange
  rw [if_neg (not_le.mpr h)]
  constructor
  · rintro n rfl
    have : (n != 0) = decide (0 < n) := by cases n <;> simp
    simp [this]
  · rintro e rfl
    rfl

/-- Witness for C2: `probability = 0`, two removals, one notification. -/
theorem c2_uncertain_attendance_unslots_witness :
    catchAttendanceChange ⟨3, 4, 0⟩ (.ok 2) =
      { cbErr := none,
        sentNotifs := if 0 < 2 then [(3, 4, 2)] else [],
        unattendCalled := true } :=
  (c2_uncertain_attendance_unslots ⟨3, 4, 0⟩ (.ok 2) (by norm_num)).1 2 rfl

/-- C3: `topicIsEvent` classifies a title as an event exactly when the
trimmed title contains a substring `YYYY-MM-DD` immediately followed by a
character that is neither a digit nor an ASCII letter of either case. -/
theorem c3_topicIsEvent_iff_containsEventDate (title : List Char) :
    topicIsEvent title = true ↔ containsEventDate (jsTrim title) := by
  rw [topicIsEvent, containsEventDate, hasDateSep_iff_drop]
  constructor
  · rintro ⟨n, h⟩
    obtain ⟨d, c, r, hdecomp, hd, hc⟩ := (dateSepHere_iff _).mp h
    refine ⟨(jsTrim title).take n, d, c, r, ?_, hd, hc⟩
    conv_lhs => rw [← List.take_append_drop n (jsTrim title)]
    rw [hdecomp, List.append_assoc]
  · rintro ⟨pre, d, c, post, heq, hd, hc⟩
    refine ⟨pre.length, (dateSepHere_iff _).mpr ⟨d, c, post, ?_, hd, hc⟩⟩
    rw [heq, List.append_assoc, List.drop_left]

/-- C4 (evaluation at the failing input): in the title
`"2024-05-01 18:00"` the date is followed by the time component `" 18:00"`,
yet the match the code finds is `"2024-05-01 "` with the time group empty
(`dateParts[2]` undefined), so `secondsToEvent` takes the no-time branch and
adds 24 hours to the bare date instead of using 18:00: with the date oracle
answering `t` for the match and the clock at the same `t`, the result is
`86400` seconds. -/
theorem c4_time_component_never_captured :
    eventDateScan (jsTrim ("2024-05-01 18:00".toList)) =
      some ("2024-05-01 ".toList, false) ∧
    secondsToEvent (fun _ => some 1714521600000) 1714521600000
      ("2024-05-01 18:00".toList) = some 86400 := by decide

/-- C5 (amended): `secondsToEvent` returns the `-1` sentinel whenever the
title is not an event (per `topicIsEvent`); when the scan matches, the title
is an event and the result is `(startInstant - now) / 1000` if the matched
date string parses, and `NaN` (modelled `none`) — not `-1` — if it does not. -/
theorem c5_sentinel_and_quotient (parseDate : List Char → Option Int)
    (now : Int) (title : List Char) :
    (topicIsEvent title = false → secondsToEvent parseDate now title = some (-1)) ∧
    (∀ m g, eventDateScan (jsTrim title) = some (m, g) →
      topicIsEvent title = true ∧
      secondsToEvent parseDate now title =
        (parseDate m).map
          (fun t => Rat.divInt ((if g then t else t + 86400 * 1000) - now) 1000)) := by
  constructor
  · intro h
    rw [topicIsEvent] at h
    have hscan : eventDateScan (jsTrim title) = none := by
      have := eventDateScan_isSome (jsTrim title)
      rw [h] at this
      exact Option.not_isSome_iff_eq_none.mp (by simp [this])
    rw [secondsToEvent, hscan]
  · intro m g hscan
    have hisSome := eventDateScan_isSome (jsTrim title)
    rw [hscan] at hisSome
    refine ⟨by rw [topicIsEvent, ← hisSome]; rfl, ?_⟩
    have hne := eventDateScan_matched_ne_empty hscan
    cases hp : parseDate m with
    | none => simp [secondsToEvent, hscan, hne, hp]
    | some t => simp [secondsToEvent, hscan, hne, hp]

/-- Counterexample to C5 as stated: `"9999-99-99!"` is classified as an
event, and its matched date string `"9999-99-99!"` is an Invalid Date
(`new Date` yields `NaN`), so the code returns `NaN` (modelled `none`), not
the `-1` sentinel the claim promises for a title that fails to parse. -/
theorem c5_nan_not_sentinel_counterexample :
    topicIsEvent ("9999-99-99!".toList) = true ∧
    secondsToEvent (fun _ => none) 0 ("9999-99-99!".toList) = none ∧
    (none : Option ℚ) ≠ some (-1) := by decide

/-- A falsy `X-Api-Key` header (absent or empty) can never satisfy the
static-key test `apiKey && header === apiKey`. -/
lemma apiKeyCond_eq_false (apiKey : String) (hdr : Option String)
    (h : jsTruthyStrOpt hdr = false) :
    (apiKey != "" && hdr == some apiKey) = false := by
  cases hdr with
  | none => simp
  | some s =>
    simp [jsTruthyStrOpt] at h
    subst h
    by_cases hk : apiKey = ""
    · subst hk; simp
    · simp [Ne.symm hk]

/-- C6 (amended): a request presenting the configured static API key passes
`requireLoggedIn` and `requireAdminOrThreadOwner` without consulting
identity or edit-permission state, but `requireCanWriteAttendance` ignores
the static key: any `X-Api-Key` header is treated as a share token, and the
request passes exactly when the share-token lookup finds one. -/
theorem c6_static_key_gates (env : Env) (req : Req)
    (h1 : env.apiKey ≠ "") (h2 : req.headerApiKey = some env.apiKey) :
    requireLoggedIn env req = .next ∧
    requireAdminOrThreadOwner env req = .next ∧
    (requireCanWriteAttendance env req = .next ↔ env.shareGet = .ok true) := by
  have hcond : (env.apiKey != "" && req.headerApiKey == some env.apiKey) = true := by
    simp [h1, h2]
  have ht : jsTruthyStrOpt req.headerApiKey = true := by
    rw [h2]; simp [jsTruthyStrOpt, h1]
  refine ⟨?_, ?_, ?_⟩
  · simp [requireLoggedIn, hcond]
  · simp [requireAdminOrThreadOwner, hcond]
  · rw [requireCanWriteAttendance, if_pos ht]
    rcases hs : env.shareGet with e | b
    · simp
    · cases b <;> simp

/-- Witness for C6 at the concrete key-configured environment and a request
presenting that key. -/
theorem c6_static_key_gates_witness :
    requireLoggedIn keyNoShareEnv ⟨3, some "secret", "7"⟩ = .next ∧
    requireAdminOrThreadOwner keyNoShareEnv ⟨3, some "secret", "7"⟩ = .next ∧
    (requireCanWriteAttendance keyNoShareEnv ⟨3, some "secret", "7"⟩ = .next ↔
      keyNoShareEnv.shareGet = .ok true) :=
  c6_static_key_gates keyNoShareEnv ⟨3, some "secret", "7"⟩ (by decide) rfl

/-- Counterexample to C6 as stated: with the static key `"secret"`
configured and presented, `requireLoggedIn` and `requireAdminOrThreadOwner`
pass, but `requireCanWriteAttendance` hands the key to the share store as a
share id and rejects the request with 403 when no such token exists — so not
every check admits the request. -/
theorem c6_canWrite_rejects_static_key_counterexample :
    requireLoggedIn keyNoShareEnv ⟨0, some "secret", "5"⟩ = .next ∧
    requireAdminOrThreadOwner keyNoShareEnv ⟨0, some "secret", "5"⟩ = .next ∧
    requireCanWriteAttendance keyNoShareEnv ⟨0, some "secret", "5"⟩ =
      .responded 403 (.messageObj "Invalid share id") := by decide

/-- C7 (amended): the `isAdminOrThreadOwner` probe answers 200 with a
boolean `result` when an API key header is present (the key comparison) or
when the caller is a guest (`false`), and its 200 `result` agrees with
`requireAdminOrThreadOwner` passing for an ordinary logged-in request; but
it is not total: a logged-in request without a parseable topic id gets a
400 `\x7berror\x7d` body, and a failing edit-permission or group lookup gets a
500 carrying the raw error. -/
theorem c7_probe_responses (env : Env) (req : Req) :
    (jsTruthyStrOpt req.headerApiKey = true →
      isAdminOrThreadOwner env req =
        .responded 200 (.resultObj (req.headerApiKey == some env.apiKey))) ∧
    (jsTruthyStrOpt req.headerApiKey = false → req.uid = 0 →
      isAdminOrThreadOwner env req =
        .responded 200 (.resultMsgObj false "you're not logged in, btw")) ∧
    (jsTruthyStrOpt req.headerApiKey = false → req.uid ≠ 0 →
      jsTruthyIntOpt (jsParseInt req.tidStr) = false →
      isAdminOrThreadOwner env req =
        .responded 400 (.errorFieldObj "must provide topic id")) ∧
    (∀ e, jsTruthyStrOpt req.headerApiKey = false → req.uid ≠ 0 →
      jsTruthyIntOpt (jsParseInt req.tidStr) = true →
      env.isAllowedToEdit = .error e →
      isAdminOrThreadOwner env req = .responded 500 (.rawError e)) ∧
    (∀ b gs, jsTruthyStrOpt req.headerApiKey = false → req.uid ≠ 0 →
      jsTruthyIntOpt (jsParseInt req.tidStr) = true →
      env.isAllowedToEdit = .ok b → env.getGroups = .ok gs →
      isAdminOrThreadOwner env req = .responded 200 (.groupsResultObj gs b) ∧
        (b = true ↔ requireAdminOrThreadOwner env req = .next)) := by
  refine ⟨?_, ?_, ?_, ?_, ?_⟩
  · intro h
    simp [isAdminOrThreadOwner, h]
  · intro h h0
    simp [isAdminOrThreadOwner, h, h0]
  · intro h h0 htid
    simp [isAdminOrThreadOwner, h, h0, htid]
  · intro e h h0 htid he
    simp [isAdminOrThreadOwner, h, h0, htid, he]
  · intro b gs h h0 htid hb hg
    have hcond := apiKeyCond_eq_false env.apiKey req.headerApiKey h
    have hgate : requireAdminOrThreadOwner env req =
        (if b then .next
         else .responded 403 (.messageObj "You're not admin or owner of this topic")) := by
      simp [requireAdminOrThreadOwner, hcond, h0, htid, hb]
      cases b <;> simp
    refine ⟨by simp [isAdminOrThreadOwner, h, h0, htid, hb, hg], ?_⟩
    cases b <;> simp [hgate]

/-- Counterexample to C7 as stated: a logged-in request whose `:tid`
parameter does not parse makes the probe fail the request with status 400,
so the probe does not always answer with a 200 `result` body. -/
theorem c7_probe_400_counterexample :
    isAdminOrThreadOwner favourableEnv ⟨5, none, "abc"⟩ =
      .responded 400 (.errorFieldObj "must provide topic id") := by decide

/-- C9 (amended): dependency failures in the gates built on
`exceptionToErrorResponse` (topic existence, category lookup, title lookup)
do answer 500 with a `\x7bmessage\x7d` body, but `canSee`/`canAttend` failures
are re-thrown inside the callback and produce no HTTP response at all, and
an edit-permission failure in `requireAdminOrThreadOwner` answers 500 with
the raw error object rather than a `\x7bmessage\x7d` wrapper. -/
theorem c9_error_responses (env : Env) (req : Req) :
    (∀ e, env.topicExists = .error e →
      requireTopic env req = .responded 500 (.messageObj e.message)) ∧
    (∀ e, env.getTitle = .error e →
      requireEventInFuture env req = .responded 500 (.messageObj e.message)) ∧
    (env.allowedCategories ≠ [] → ∀ e, env.getCategoryId = .error e →
      restrictCategories env req = .responded 500 (.messageObj e.message)) ∧
    (∀ e, env.canSee = .error e → requireCanSeeAttendance env = .thrown e) ∧
    (∀ e, jsTruthyStrOpt req.headerApiKey = false → env.canAttend = .error e →
      requireCanWriteAttendance env req = .thrown e) ∧
    (∀ e, jsTruthyStrOpt req.headerApiKey = false → req.uid ≠ 0 →
      jsTruthyIntOpt (jsParseInt req.tidStr) = true →
      env.isAllowedToEdit = .error e →
      requireAdminOrThreadOwner env req = .responded 500 (.rawError e)) := by
  refine ⟨?_, ?_, ?_, ?_, ?_, ?_⟩
  · intro e he
    simp [requireTopic, he, exceptionToErrorResponse]
  · intro e he
    simp [requireEventInFuture, he, exceptionToErrorResponse]
  · intro hne e he
    simp [restrictCategories, hne, he, exceptionToErrorResponse]
  · intro e he
    simp [requireCanSeeAttendance, he]
  · intro e h he
    simp [requireCanWriteAttendance, h, he]
  · intro e h h0 htid he
    have hcond := apiKeyCond_eq_false env.apiKey req.headerApiKey h
    simp [requireAdminOrThreadOwner, hcond, h0, htid, he]

/-- Counterexample to C9 as stated: the probe's missing-topic-id failure is
a 400 whose body is `\x7berror: …\x7d`, not of the documented `\x7bmessage: string\x7d`
shape, and a failing `canSee` provider produces a thrown error — no HTTP
response, in particular no 500 — on a failing request. -/
theorem c9_error_body_counterexample :
    isAdminOrThreadOwner favourableEnv ⟨6, none, "xyz"⟩ =
      .responded 400 (.errorFieldObj "must provide topic id") ∧
    isMessageBody (.errorFieldObj "must provide topic id") = false ∧
    requireCanSeeAttendance canSeeErrorEnv = .thrown ⟨"boom"⟩ := by decide

/-- C8 (amended): unlisted verbs are answered 405 exactly on the six path
families that register an `all(path, methodNotAllowed)` catch-all
(`/:tid/match`, `/:tid/match/:matchid`, `…/share`, `…/slot`, `…/slot/:slotid/user`,
`…/slot/:slotid/reservation`); on the other listed paths (`/:tid`,
`/:tid/slotted-user-ids`, `/:tid/has-permissions`,
`/:tid/match/:matchid/share/:shareid`) an unlisted verb falls through the
router unanswered instead of getting a 405. -/
theorem c8_unlisted_verbs :
    (∀ v, v ≠ Method.post →
      dispatch favourableEnv 7 none v ["5", "match"] =
        .responded 405 (.messageObj "Method not allowed")) ∧
    (∀ v, v ≠ Method.put → v ≠ Method.get → v ≠ Method.delete →
      dispatch favourableEnv 7 none v ["5", "match", "9"] =
        .responded 405 (.messageObj "Method not allowed")) ∧
    (∀ v, v ≠ Method.get → v ≠ Method.post → v ≠ Method.delete →
      dispatch favourableEnv 7 none v ["5", "match", "9", "share"] =
        .responded 405 (.messageObj "Method not allowed")) ∧
    (∀ v, v ≠ Method.get →
      dispatch favourableEnv 7 none v ["5", "match", "9", "slot"] =
        .responded 405 (.messageObj "Method not allowed")) ∧
    (∀ v, v ≠ Method.put → v ≠ Method.delete → v ≠ Method.get →
      dispatch favourableEnv 7 none v ["5", "match", "9", "slot", "11", "user"] =
        .responded 405 (.messageObj "Method not allowed")) ∧
    (∀ v, v ≠ Method.put → v ≠ Method.delete → v ≠ Method.get →
      dispatch favourableEnv 7 none v ["5", "match", "9", "slot", "11", "reservation"] =
        .responded 405 (.messageObj "Method not allowed")) ∧
    dispatch favourableEnv 7 none .put ["5"] = .fallthrough ∧
    dispatch favourableEnv 7 none .post ["5", "slotted-user-ids"] = .fallthrough ∧
    dispatch favourableEnv 7 none .post ["5", "has-permissions"] = .fallthrough ∧
    dispatch favourableEnv 7 none .put ["5", "match", "9", "share", "11"] =
      .fallthrough := by
  refine ⟨?_, ?_, ?_, ?_, ?_, ?_, ?_, ?_, ?_, ?_⟩
  · intro v h
    cases v
    · decide
    · exact absurd rfl h
    · decide
    · decide
    · decide
  · intro v h1 h2 h3
    cases v
    · exact absurd rfl h2
    · decide
    · exact absurd rfl h1
    · exact absurd rfl h3
    · decide
  · intro v h1 h2 h3
    cases v
    · exact absurd rfl h1
    · exact absurd rfl h2
    · decide
    · exact absurd rfl h3
    · decide
  · intro v h
    cases v
    · exact absurd rfl h
    · decide
    · decide
    · decide
    · decide
  · intro v h1 h2 h3
    cases v
    · exact absurd rfl h3
    · decide
    · exact absurd rfl h1
    · exact absurd rfl h2
    · decide
  · intro v h1 h2 h3
    cases v
    · exact absurd rfl h3
    · decide
    · exact absurd rfl h1
    · exact absurd rfl h2
    · decide
  · decide
  · decide
  · decide
  · decide

/-- Counterexample to C8 as stated: `/:tid/slotted-user-ids` is a listed
path whose only listed verb is GET, yet a POST to it — with every gate
answering favourably — is not answered 405: it falls through the router. -/
theorem c8_no_405_counterexample :
    dispatch favourableEnv 7 none .post ["5", "slotted-user-ids"] = .fallthrough := by
  decide

/-- C10: `filterAttendanceSlotted` on success passes a null error and the
slotted user ids to its callback and assigns the same list to
`params.userIds`; on repository failure it passes the error and an empty
list and leaves `params.userIds` unassigned. -/
theorem c10_filterAttendanceSlotted_spec :
    (∀ ids, filterAttendanceSlotted (.ok ids) =
      { cbErr := none, cbUserIds := ids, paramsUserIds := some ids }) ∧
    (∀ e, filterAttendanceSlotted (.error e) =
      { cbErr := some e, cbUserIds := [], paramsUserIds := none }) :=
  ⟨fun _ => rfl, fun _ => rfl⟩

end Arma3Slotting
